import Mathlib

/-!
# NDPluginCentroids: the per-frame callback

A shallow embedding of `NDPluginCentroids::processCallbacks`
(`centroidsApp/src/NDPluginCentroids.cpp`, lines 31-134) and of the part of
the parameter table it touches (`NDPluginCentroids.h`).

The callback is stateful glue: it reads the parameter library, fills a
`centroid_params` record, asks the centroiding library to validate it, obtains
two arrays from the array pool, runs the engine with the plugin lock released
and publishes one integer.  The embedding threads an explicit state
(`Plugin`) through the statements of the function in source order.  Every call
the function makes is appended to a log together with the value of the lock at
that moment, so that properties about what was called, with which arguments,
in which order and under which lock state are statements about that log.

What the source only includes (`centroids.h`, the `NDPluginDriver` base class
and its `NDArrayPool`) is not part of these two files; it enters as the record
`Host`, over which every general theorem quantifies.  The pool may fail: both
of its operations can leave the callback with a NULL pointer, which the
callback dereferences at lines 117-118 before its own NULL test at line 128.
A run that does so ends there, marked `crashed`.
-/

namespace NDPluginCentroids

/-! ## Data model -/

/-- Pixel types an `NDArray` can carry (`NDDataType_t`). -/
inductive NDDataType_t where
  | NDInt8 | NDUInt8 | NDInt16 | NDUInt16 | NDInt32 | NDUInt32
  | NDInt64 | NDUInt64 | NDFloat32 | NDFloat64
  deriving DecidableEq, Repr

/-- The fields of an `NDArray` the callback looks at: `ndims`, the `size` of
each entry of `dims`, `dataType`, and the data pointer `pData` (an address). -/
structure NDArray where
  ndims : Nat
  dims : List Nat
  dataType : NDDataType_t
  pData : Nat
  deriving DecidableEq, Repr

/-- Reading `pArray->dims[i].size`. -/
def NDArray.size (a : NDArray) (i : Nat) : Nat := a.dims.getD i 0

/-- A `double` of the parameter library, carried as its 64-bit pattern: the
callback only copies these values. -/
abbrev epicsFloat64 := Nat

/-- The members of `centroid_params<uint16_t, double>` the callback names:
`threshold` of the pixel type `uint16_t`, the members filled through
`getIntegerParam` as `int`, the two sums as `double`, the frame counts `n`, `x`
and `y` unsigned like the `size_t` sizes assigned to them, and `other` for the
members of the record the callback never names. -/
structure centroid_params where
  threshold : Nat
  box : Int
  search_box : Int
  com_photon_num : Int
  pixel_photon_num : Int
  pixel_bgnd_num : Int
  overlap_max : Int
  sum_min : epicsFloat64
  sum_max : epicsFloat64
  fit_pixels : Nat
  n : Nat
  x : Nat
  y : Nat
  return_map : Bool
  return_pixels : Int
  other : List Int
  deriving DecidableEq, Repr

/-- The parameter indices created by the constructor (lines 171-196), each
with the name `NDPluginCentroids.h` gives it in the library. -/
inductive Param where
  | NDPluginCentroidsThreshold      -- THRESHOLD
  | NDPluginCentroidsBox            -- BOX
  | NDPluginCentroidsSearchBox      -- SEARCH_BOX
  | NDPluginCentroidsPixelPhoton    -- PIXEL_PHOTON
  | NDPluginCentroidsPixelBgnd      -- PIXEL_BGND
  | NDPluginCentroidsCOMPhoton      -- PIXEL_COM
  | NDPluginCentroidsOverlapMax     -- OVERLAP_MAX
  | NDPluginCentroidsSumMin         -- SUM_MIN
  | NDPluginCentroidsSumMax         -- SUM_MAX
  | NDPluginCentroidsFitPixels2D    -- FIT_2D
  | NDPluginCentroidsFitPixels1DX   -- FIT_1D_X
  | NDPluginCentroidsFitPixels1DY   -- FIT_1D_Y
  | NDPluginCentroidsNPhotons       -- N_PHOTONS
  deriving DecidableEq, Repr

/-- The parameter library: a 32-bit integer table and a double table. -/
structure ParamList where
  int32 : Param → Int
  float64 : Param → epicsFloat64

/-- The library with the integer parameter `index` set to `value`. -/
def ParamList.setInt32 (lib : ParamList) (index : Param) (value : Int) : ParamList :=
  { lib with int32 := Function.update lib.int32 index value }

/-- The two error lines the callback prints. -/
inductive Message where
  | use2DImages
  | errorInParameters
  deriving DecidableEq, Repr

/-- One call made by `processCallbacks`, with the arguments that matter. -/
inductive Call where
  | endProcessCallbacks (pArray : NDArray) (copyArray readAttributes : Bool)
  | callParamCallbacks
  | asynPrint (msg : Message)
  | beginProcessCallbacks (pArray : NDArray)
  | centroids_initialize_params
  | getIntegerParam (index : Param)
  | getDoubleParam (index : Param)
  | centroids_calculate_params (params : centroid_params)
  | alloc (ndims : Nat) (dims : List Nat) (dataType : NDDataType_t)
  | convert (pIn : NDArray) (dataTypeOut : NDDataType_t)
  | unlock
  | centroids_process (image out : Nat) (pixels : Option (List Nat))
      (params : centroid_params)
  | lock
  | setIntegerParam (index : Param) (value : Int)
  | release (pArray : NDArray)
  deriving DecidableEq, Repr

/-- What `processCallbacks` uses and these two files do not define: the
constants and the three functions of `centroids.h`, and the array pool of the
base class. `centroids_initialize_params` is the record that function leaves,
`centroids_calculate_params` returns its status and the record it was handed
as it leaves it, `centroids_process` returns its `size_t` result. `alloc` is
the pointer `pNDArrayPool->alloc` returns and `convert` the pointer
`pNDArrayPool->convert` leaves in `pScratch` (NULL at line 37): `none` is the
NULL pointer, `some a` a pointer to the array `a`. -/
structure Host where
  CENTROIDS_PARAMS_OK : Int
  CENTROIDS_FIT_2D : Nat
  CENTROIDS_FIT_1D_X : Nat
  CENTROIDS_FIT_1D_Y : Nat
  CENTROIDS_STORE_NONE : Int
  centroids_initialize_params : centroid_params
  centroids_calculate_params : centroid_params → Int × centroid_params
  centroids_process : Nat → Nat → Option (List Nat) → centroid_params → Nat
  alloc : Nat → List Nat → NDDataType_t → Option NDArray
  convert : NDArray → NDDataType_t → Option NDArray

/-- The state the callback runs in: the parameter library, the plugin lock,
the log of calls made so far, each with the lock value at that moment, and
whether the run ended in the dereference of a NULL pointer instead of
returning. -/
structure Plugin where
  params : ParamList
  locked : Bool
  crashed : Bool
  trace : List (Bool × Call)

/-- The state at entry: "It is called with the mutex already locked". -/
def enter (lib : ParamList) : Plugin :=
  { params := lib, locked := true, crashed := false, trace := [] }

/-! ## Primitive operations -/

/-- Append a call to the log, tagged with the current lock value. -/
def emit (c : Call) : StateM Plugin Unit :=
  modify fun s => { s with trace := s.trace ++ [(s.locked, c)] }

/-- Read an integer parameter. -/
def getIntegerParam (index : Param) : StateM Plugin Int := do
  emit (.getIntegerParam index)
  return (← get).params.int32 index

/-- Read a double parameter. -/
def getDoubleParam (index : Param) : StateM Plugin epicsFloat64 := do
  emit (.getDoubleParam index)
  return (← get).params.float64 index

/-- Write an integer parameter. -/
def setIntegerParam (index : Param) (value : Int) : StateM Plugin Unit := do
  emit (.setIntegerParam index value)
  modify fun s => { s with params := s.params.setInt32 index value }

/-- Release the plugin lock. -/
def unlock : StateM Plugin Unit := do
  emit .unlock
  modify fun s => { s with locked := false }

/-- Take the plugin lock. -/
def lock : StateM Plugin Unit := do
  emit .lock
  modify fun s => { s with locked := true }

/-- The dereference of a NULL pointer: the run ends here and never returns. -/
def nullDereference : StateM Plugin Unit :=
  modify fun s => { s with crashed := true }

/-- Assigning an `int` to a `uint16_t`: reduction modulo 2^16. -/
def uint16_t (v : Int) : Nat := (v % 65536).toNat

/-- Passing a `size_t` where an `epicsInt32` is expected: the low 32 bits,
read as a two's complement number. -/
def epicsInt32 (v : Nat) : Int :=
  if v % 4294967296 < 2147483648 then ((v % 4294967296 : Nat) : Int)
  else ((v % 4294967296 : Nat) : Int) - 4294967296

/-! ## The callback -/

/-- The body of `NDPluginCentroids::processCallbacks(NDArray *pArray)`,
statement by statement. Neither pool result is tested before lines 117-118
read `pScratch->pData` and `pOutput->pData` to build the arguments of the
engine call: if either pointer is NULL the run ends there, after the unlock
and before the engine is entered. -/
def processCallbacks (h : Host) (pArray : NDArray) : StateM Plugin Unit := do
  -- lines 43-50
  if pArray.ndims ≠ 2 then
    emit (.endProcessCallbacks pArray true true)
    emit .callParamCallbacks
    emit (.asynPrint .use2DImages)
  else
    -- line 53
    emit (.beginProcessCallbacks pArray)
    -- lines 55-58
    let nDims := 2
    let dims := [pArray.size 0, pArray.size 1]
    -- lines 62-63
    emit .centroids_initialize_params
    let mut params := h.centroids_initialize_params
    -- lines 65-67
    let threshold ← getIntegerParam .NDPluginCentroidsThreshold
    params := { params with threshold := uint16_t threshold }
    -- lines 69-76
    params := { params with box := ← getIntegerParam .NDPluginCentroidsBox }
    params := { params with search_box := ← getIntegerParam .NDPluginCentroidsSearchBox }
    params := { params with com_photon_num := ← getIntegerParam .NDPluginCentroidsCOMPhoton }
    params := { params with pixel_photon_num := ← getIntegerParam .NDPluginCentroidsPixelPhoton }
    params := { params with pixel_bgnd_num := ← getIntegerParam .NDPluginCentroidsPixelBgnd }
    params := { params with overlap_max := ← getIntegerParam .NDPluginCentroidsOverlapMax }
    params := { params with sum_min := ← getDoubleParam .NDPluginCentroidsSumMin }
    params := { params with sum_max := ← getDoubleParam .NDPluginCentroidsSumMax }
    -- lines 78-90: each `if (flag) params.fit_pixels |= BIT;` as a conditional value
    let fit_2d ← getIntegerParam .NDPluginCentroidsFitPixels2D
    let fit_1dx ← getIntegerParam .NDPluginCentroidsFitPixels1DX
    let fit_1dy ← getIntegerParam .NDPluginCentroidsFitPixels1DY
    params := { params with fit_pixels :=
      if fit_2d ≠ 0 then params.fit_pixels ||| h.CENTROIDS_FIT_2D else params.fit_pixels }
    params := { params with fit_pixels :=
      if fit_1dx ≠ 0 then params.fit_pixels ||| h.CENTROIDS_FIT_1D_X else params.fit_pixels }
    params := { params with fit_pixels :=
      if fit_1dy ≠ 0 then params.fit_pixels ||| h.CENTROIDS_FIT_1D_Y else params.fit_pixels }
    -- lines 92-96
    params := { params with n := 1 }
    params := { params with x := dims.getD 1 0 }
    params := { params with y := dims.getD 0 0 }
    params := { params with return_map := true }
    params := { params with return_pixels := h.CENTROIDS_STORE_NONE }
    -- lines 98-103
    emit (.centroids_calculate_params params)
    let status := (h.centroids_calculate_params params).1
    params := (h.centroids_calculate_params params).2
    if status ≠ h.CENTROIDS_PARAMS_OK then
      emit (.asynPrint .errorInParameters)
    else
      -- lines 105-106
      emit (.alloc nDims dims .NDUInt16)
      let pOutput := h.alloc nDims dims .NDUInt16
      emit (.convert pArray .NDUInt16)
      let pScratch := h.convert pArray .NDUInt16
      -- lines 110-111 (the new, empty photon table is not logged)
      let pixels : Option (List Nat) := none
      -- line 115
      unlock
      -- lines 117-120: the arguments dereference both pointers
      match pScratch, pOutput with
      | some scratch, some output =>
        emit (.centroids_process scratch.pData output.pData pixels params)
        let nphotons := h.centroids_process scratch.pData output.pData pixels params
        -- line 124
        lock
        -- line 126
        setIntegerParam .NDPluginCentroidsNPhotons (epicsInt32 nphotons)
        -- lines 128-130: `if (pScratch != NULL)`
        match pScratch with
        | some a => emit (.release a)
        | none => pure ()
        -- lines 132-133
        emit (.endProcessCallbacks output false true)
        emit .callParamCallbacks
      | _, _ => nullDereference

/-- The state in which one call of the callback on `pArray` ends, started with
the library `lib` and the lock held: the state at return, or the state at the
dereference of a NULL pointer when `crashed` is set. -/
def after (h : Host) (lib : ParamList) (pArray : NDArray) : Plugin :=
  ((processCallbacks h pArray).run (enter lib)).2

/-! ## Reading the log -/

/-- The calls of a run, in order, without the lock tags. -/
def calls (s : Plugin) : List Call := s.trace.map Prod.snd

/-- The records handed to `centroids_calculate_params`. -/
def validations (l : List Call) : List centroid_params :=
  l.filterMap fun c => match c with
    | .centroids_calculate_params p => some p
    | _ => none

/-- The argument lists of the `centroids_process` calls. -/
def engineCalls (l : List Call) : List (Nat × Nat × Option (List Nat) × centroid_params) :=
  l.filterMap fun c => match c with
    | .centroids_process image out pixels p => some (image, out, pixels, p)
    | _ => none

/-- The requests made to `pNDArrayPool->alloc`. -/
def allocations (l : List Call) : List (Nat × List Nat × NDDataType_t) :=
  l.filterMap fun c => match c with
    | .alloc n d t => some (n, d, t)
    | _ => none

/-- The arrays handed to `endProcessCallbacks`. -/
def handedDownstream (l : List Call) : List NDArray :=
  l.filterMap fun c => match c with
    | .endProcessCallbacks a _ _ => some a
    | _ => none

/-- The parameters read, in order. -/
def reads (l : List Call) : List Param :=
  l.filterMap fun c => match c with
    | .getIntegerParam i => some i
    | .getDoubleParam i => some i
    | _ => none

/-- The parameters written, with the value written, in order. -/
def writes (l : List Call) : List (Param × Int) :=
  l.filterMap fun c => match c with
    | .setIntegerParam i v => some (i, v)
    | _ => none

/-- A read or a write of the parameter library. -/
def Call.isParamAccess : Call → Bool
  | .getIntegerParam _ => true
  | .getDoubleParam _ => true
  | .setIntegerParam _ _ => true
  | _ => false

/-- The engine call. -/
def Call.isEngine : Call → Bool
  | .centroids_process _ _ _ _ => true
  | _ => false

/-- A release of the plugin lock. -/
def Call.isUnlock : Call → Bool
  | .unlock => true
  | _ => false

/-- A take of the plugin lock. -/
def Call.isLock : Call → Bool
  | .lock => true
  | _ => false

/-- A validation that only fills in members the callback never names: every
member the callback sets comes back as it went in. -/
def KeepsConfiguration (h : Host) : Prop :=
  ∀ p, { (h.centroids_calculate_params p).2 with other := p.other } = p

/-- A pool whose `alloc`, when it delivers, returns an array of the shape and
type asked for. -/
def HonoursRequests (h : Host) : Prop :=
  ∀ n d t out, h.alloc n d t = some out → out.ndims = n ∧ out.dims = d ∧ out.dataType = t

/-- A pool that never hands out the data buffer of the array `a`. -/
def FreshBuffers (h : Host) (a : NDArray) : Prop :=
  (∀ t b, h.convert a t = some b → b.pData ≠ a.pData) ∧
    ∀ n d t b, h.alloc n d t = some b → b.pData ≠ a.pData

/-- The pool delivers both arrays of lines 105-106 for the frame `a`: `scratch`
from `convert` and `output` from `alloc`. -/
def Delivered (h : Host) (a : NDArray) (scratch output : NDArray) : Prop :=
  h.convert a .NDUInt16 = some scratch ∧
    h.alloc 2 [a.size 0, a.size 1] .NDUInt16 = some output

/-- The pool leaves the callback with a NULL pointer for the frame `a`. -/
def PoolFails (h : Host) (a : NDArray) : Prop :=
  h.convert a .NDUInt16 = none ∨ h.alloc 2 [a.size 0, a.size 1] .NDUInt16 = none

/-- The three fit-mode constants are nonzero and share no bit. -/
def DistinctModes (h : Host) : Prop :=
  h.CENTROIDS_FIT_2D ≠ 0 ∧ h.CENTROIDS_FIT_1D_X ≠ 0 ∧ h.CENTROIDS_FIT_1D_Y ≠ 0 ∧
    h.CENTROIDS_FIT_2D &&& h.CENTROIDS_FIT_1D_X = 0 ∧
    h.CENTROIDS_FIT_2D &&& h.CENTROIDS_FIT_1D_Y = 0 ∧
    h.CENTROIDS_FIT_1D_X &&& h.CENTROIDS_FIT_1D_Y = 0

/-- The bitwise OR of the fit-mode constants over the flags that are nonzero. -/
def flagBits (h : Host) (lib : ParamList) : Nat :=
  ((if lib.int32 .NDPluginCentroidsFitPixels2D ≠ 0 then h.CENTROIDS_FIT_2D else 0) |||
    (if lib.int32 .NDPluginCentroidsFitPixels1DX ≠ 0 then h.CENTROIDS_FIT_1D_X else 0)) |||
    (if lib.int32 .NDPluginCentroidsFitPixels1DY ≠ 0 then h.CENTROIDS_FIT_1D_Y else 0)

/-! ## Concrete hosts and inputs

Used to evaluate the embedding. The values are illustrative: a validator that
checks the box sizes and the frame dimensions and fills in one derived member,
an engine that reports three events, and a pool that hands out buffers at
addresses of its own. -/

/-- A host whose initialiser leaves no fit mode enabled. -/
def sampleHost : Host :=
  { CENTROIDS_PARAMS_OK := 0
    CENTROIDS_FIT_2D := 4
    CENTROIDS_FIT_1D_X := 1
    CENTROIDS_FIT_1D_Y := 2
    CENTROIDS_STORE_NONE := 0
    centroids_initialize_params :=
      { threshold := 400, box := 2, search_box := 3, com_photon_num := 9,
        pixel_photon_num := 10, pixel_bgnd_num := 15, overlap_max := 0,
        sum_min := 0, sum_max := 0, fit_pixels := 0, n := 1, x := 0, y := 0,
        return_map := false, return_pixels := 0, other := [] }
    centroids_calculate_params := fun p =>
      (if 0 < p.box ∧ p.box ≤ p.search_box ∧ 0 < p.x ∧ 0 < p.y then 0 else 1,
        { p with other := [2 * p.box + 1] })
    centroids_process := fun _ _ _ _ => 3
    alloc := fun n d t => some { ndims := n, dims := d, dataType := t, pData := 4096 }
    convert := fun a t => some { a with dataType := t, pData := 8192 } }

/-- The same host with an exhausted pool: `alloc` returns NULL and `convert`
leaves `pScratch` NULL. -/
def exhaustedPoolHost : Host :=
  { sampleHost with
    alloc := fun _ _ _ => none
    convert := fun _ _ => none }

/-- A library with a valid configuration, no fit flag set, and a stale event
count of 7 from an earlier frame. -/
def sampleLib : ParamList :=
  { int32 := fun i => match i with
      | .NDPluginCentroidsThreshold => 400
      | .NDPluginCentroidsBox => 2
      | .NDPluginCentroidsSearchBox => 3
      | .NDPluginCentroidsPixelPhoton => 10
      | .NDPluginCentroidsPixelBgnd => 15
      | .NDPluginCentroidsCOMPhoton => 9
      | .NDPluginCentroidsNPhotons => 7
      | _ => 0
    float64 := fun _ => 0 }

/-- The same library with `BOX = 0`, which the sample validator rejects. -/
def rejectedLib : ParamList :=
  sampleLib.setInt32 .NDPluginCentroidsBox 0

/-- The sample library with `THRESHOLD = 70000`, above the `uint16_t` range. -/
def largeThresholdLib : ParamList :=
  sampleLib.setInt32 .NDPluginCentroidsThreshold 70000

/-- The sample library with the 1D-X and 1D-Y fit flags set. -/
def fit1DLib : ParamList :=
  (sampleLib.setInt32 .NDPluginCentroidsFitPixels1DX 1).setInt32 .NDPluginCentroidsFitPixels1DY 1

/-- A 640 x 480 frame of 8-bit pixels. -/
def sampleFrame : NDArray :=
  { ndims := 2, dims := [640, 480], dataType := .NDUInt8, pData := 1024 }

/-- A 3-dimensional array. -/
def sampleCube : NDArray :=
  { ndims := 3, dims := [640, 480, 3], dataType := .NDUInt8, pData := 1024 }

/-! ## Closed forms of the paths -/

/-- The `fit_pixels` value lines 78-90 leave, given the value the library's
initialiser left. -/
def fitPixels (h : Host) (lib : ParamList) : Nat :=
  let v := h.centroids_initialize_params.fit_pixels
  let v := if lib.int32 .NDPluginCentroidsFitPixels2D ≠ 0 then v ||| h.CENTROIDS_FIT_2D else v
  let v := if lib.int32 .NDPluginCentroidsFitPixels1DX ≠ 0 then v ||| h.CENTROIDS_FIT_1D_X else v
  if lib.int32 .NDPluginCentroidsFitPixels1DY ≠ 0 then v ||| h.CENTROIDS_FIT_1D_Y else v

/-- The record lines 62-96 have built when validation is called. -/
def configured (h : Host) (lib : ParamList) (pArray : NDArray) : centroid_params :=
  { threshold := uint16_t (lib.int32 .NDPluginCentroidsThreshold)
    box := lib.int32 .NDPluginCentroidsBox
    search_box := lib.int32 .NDPluginCentroidsSearchBox
    com_photon_num := lib.int32 .NDPluginCentroidsCOMPhoton
    pixel_photon_num := lib.int32 .NDPluginCentroidsPixelPhoton
    pixel_bgnd_num := lib.int32 .NDPluginCentroidsPixelBgnd
    overlap_max := lib.int32 .NDPluginCentroidsOverlapMax
    sum_min := lib.float64 .NDPluginCentroidsSumMin
    sum_max := lib.float64 .NDPluginCentroidsSumMax
    fit_pixels := fitPixels h lib
    n := 1
    x := pArray.size 1
    y := pArray.size 0
    return_map := true
    return_pixels := h.CENTROIDS_STORE_NONE
    other := h.centroids_initialize_params.other }

/-- The record validation leaves, which is the one the engine is given. -/
def validated (h : Host) (lib : ParamList) (pArray : NDArray) : centroid_params :=
  (h.centroids_calculate_params (configured h lib pArray)).2

/-- The value the engine call of lines 117-120 returns when the pool has
delivered `scratch` and `output`. -/
def nphotons (h : Host) (lib : ParamList) (pArray scratch output : NDArray) : Nat :=
  h.centroids_process scratch.pData output.pData none (validated h lib pArray)

/-- The calls between validation and the dereferences of lines 117-118. -/
def poolCalls (pArray : NDArray) : List (Bool × Call) :=
  [ (true, .alloc 2 [pArray.size 0, pArray.size 1] .NDUInt16),
    (true, .convert pArray .NDUInt16),
    (true, .unlock) ]

/-- The calls from the engine call to the return, when the pool has delivered
`scratch` and `output`. -/
def engineCallsOn (h : Host) (lib : ParamList) (pArray scratch output : NDArray) :
    List (Bool × Call) :=
  [ (false, .centroids_process scratch.pData output.pData none (validated h lib pArray)),
    (false, .lock),
    (true, .setIntegerParam .NDPluginCentroidsNPhotons
      (epicsInt32 (nphotons h lib pArray scratch output))),
    (true, .release scratch),
    (true, .endProcessCallbacks output false true),
    (true, .callParamCallbacks) ]

/-- The calls every 2-D frame starts with: up to and including validation. -/
def prologue (h : Host) (lib : ParamList) (pArray : NDArray) : List (Bool × Call) :=
  [ (true, .beginProcessCallbacks pArray),
    (true, .centroids_initialize_params),
    (true, .getIntegerParam .NDPluginCentroidsThreshold),
    (true, .getIntegerParam .NDPluginCentroidsBox),
    (true, .getIntegerParam .NDPluginCentroidsSearchBox),
    (true, .getIntegerParam .NDPluginCentroidsCOMPhoton),
    (true, .getIntegerParam .NDPluginCentroidsPixelPhoton),
    (true, .getIntegerParam .NDPluginCentroidsPixelBgnd),
    (true, .getIntegerParam .NDPluginCentroidsOverlapMax),
    (true, .getDoubleParam .NDPluginCentroidsSumMin),
    (true, .getDoubleParam .NDPluginCentroidsSumMax),
    (true, .getIntegerParam .NDPluginCentroidsFitPixels2D),
    (true, .getIntegerParam .NDPluginCentroidsFitPixels1DX),
    (true, .getIntegerParam .NDPluginCentroidsFitPixels1DY),
    (true, .centroids_calculate_params (configured h lib pArray)) ]

/-! ## Arithmetic of the two conversions -/

theorem epicsInt32_of_lt {v : Nat} (hv : v < 2147483648) : epicsInt32 v = (v : Int) := by
  have h1 : v % 4294967296 = v := Nat.mod_eq_of_lt (by omega)
  simp [epicsInt32, h1, hv]

theorem epicsInt32_lower (v : Nat) : -2147483648 ≤ epicsInt32 v := by
  unfold epicsInt32
  split <;> omega

theorem epicsInt32_upper (v : Nat) : epicsInt32 v < 2147483648 := by
  unfold epicsInt32
  split <;> omega

theorem epicsInt32_congr (v : Nat) : (epicsInt32 v - (v : Int)) % 4294967296 = 0 := by
  unfold epicsInt32
  split <;> omega

theorem epicsInt32_wraps :
    epicsInt32 2147483647 = 2147483647 ∧ epicsInt32 2147483648 = -2147483648 ∧
    epicsInt32 4294967295 = -1 ∧ epicsInt32 4294967296 = 0 := by
  decide

theorem uint16_t_cast (t : Int) : ((uint16_t t : Nat) : Int) = t % 65536 := by
  unfold uint16_t
  exact Int.toNat_of_nonneg (Int.emod_nonneg t (by norm_num))

theorem uint16_t_lt (t : Int) : uint16_t t < 65536 := by
  have h1 := uint16_t_cast t
  have h2 : t % 65536 < 65536 := Int.emod_lt_of_pos t (by norm_num)
  omega

theorem uint16_t_eq_iff (t : Int) : ((uint16_t t : Nat) : Int) = t ↔ 0 ≤ t ∧ t ≤ 65535 := by
  rw [uint16_t_cast]
  omega

theorem lor_land_first (a x b c : Nat) : (a ||| ((x ||| b) ||| c)) &&& x = x := by
  apply Nat.eq_of_testBit_eq
  intro i
  simp only [Nat.testBit_and, Nat.testBit_or]
  cases a.testBit i <;> cases x.testBit i <;> cases b.testBit i <;> cases c.testBit i <;> rfl

theorem lor_land_second (a b x c : Nat) : (a ||| ((b ||| x) ||| c)) &&& x = x := by
  apply Nat.eq_of_testBit_eq
  intro i
  simp only [Nat.testBit_and, Nat.testBit_or]
  cases a.testBit i <;> cases x.testBit i <;> cases b.testBit i <;> cases c.testBit i <;> rfl

theorem lor_land_third (a b c x : Nat) : (a ||| ((b ||| c) ||| x)) &&& x = x := by
  apply Nat.eq_of_testBit_eq
  intro i
  simp only [Nat.testBit_and, Nat.testBit_or]
  cases a.testBit i <;> cases x.testBit i <;> cases b.testBit i <;> cases c.testBit i <;> rfl

theorem land_lor3 (a b c x : Nat) :
    ((a ||| b) ||| c) &&& x = ((a &&& x) ||| (b &&& x)) ||| (c &&& x) := by
  apply Nat.eq_of_testBit_eq
  intro i
  simp only [Nat.testBit_and, Nat.testBit_or]
  cases a.testBit i <;> cases x.testBit i <;> cases b.testBit i <;> cases c.testBit i <;> rfl

/-! ## The four paths -/

theorem after_not2D (h : Host) (lib : ParamList) (pArray : NDArray)
    (hd : pArray.ndims ≠ 2) :
    after h lib pArray =
      { params := lib, locked := true, crashed := false,
        trace := [ (true, .endProcessCallbacks pArray true true),
                   (true, .callParamCallbacks),
                   (true, .asynPrint .use2DImages) ] } := by
  unfold after processCallbacks
  rw [if_pos hd]
  rfl

theorem after_invalid (h : Host) (lib : ParamList) (pArray : NDArray)
    (hd : pArray.ndims = 2)
    (hv : (h.centroids_calculate_params (configured h lib pArray)).1 ≠ h.CENTROIDS_PARAMS_OK) :
    after h lib pArray =
      { params := lib, locked := true, crashed := false,
        trace := prologue h lib pArray ++ [ (true, .asynPrint .errorInParameters) ] } := by
  have hd2 : ¬ pArray.ndims ≠ 2 := by simp [hd]
  unfold after processCallbacks
  rw [if_neg hd2]
  simp only [bind, StateT.bind, StateT.run, emit, getIntegerParam, getDoubleParam,
      modify, modifyGet, MonadStateOf.modifyGet, StateT.modifyGet, get, getThe, MonadStateOf.get,
      StateT.get, pure, StateT.pure, enter]
  refine Eq.trans (congrArg Prod.snd (congrFun (if_pos hv) _)) ?_
  rfl

theorem after_valid (h : Host) (lib : ParamList) (pArray scratch output : NDArray)
    (hd : pArray.ndims = 2)
    (hv : (h.centroids_calculate_params (configured h lib pArray)).1 = h.CENTROIDS_PARAMS_OK)
    (hp : Delivered h pArray scratch output) :
    after h lib pArray =
      { params := lib.setInt32 .NDPluginCentroidsNPhotons
          (epicsInt32 (nphotons h lib pArray scratch output)),
        locked := true, crashed := false,
        trace := prologue h lib pArray ++ poolCalls pArray ++
          engineCallsOn h lib pArray scratch output } := by
  have hd2 : ¬ pArray.ndims ≠ 2 := by simp [hd]
  obtain ⟨hs, ho⟩ := hp
  unfold after processCallbacks
  rw [if_neg hd2]
  simp only [bind, StateT.bind, StateT.run, emit, getIntegerParam, getDoubleParam,
      setIntegerParam, unlock, lock, nullDereference,
      modify, modifyGet, MonadStateOf.modifyGet, StateT.modifyGet, get, getThe, MonadStateOf.get,
      StateT.get, pure, StateT.pure, enter]
  have hv2 : ¬ (h.centroids_calculate_params (configured h lib pArray)).1
      ≠ h.CENTROIDS_PARAMS_OK := by simp [hv]
  refine Eq.trans (congrArg Prod.snd (congrFun (if_neg hv2) _)) ?_
  simp only [hs, ho]
  simp only [List.nil_append, List.cons_append, prologue, poolCalls, engineCallsOn, validated,
    nphotons]
  rfl

theorem after_crash (h : Host) (lib : ParamList) (pArray : NDArray)
    (hd : pArray.ndims = 2)
    (hv : (h.centroids_calculate_params (configured h lib pArray)).1 = h.CENTROIDS_PARAMS_OK)
    (hp : PoolFails h pArray) :
    after h lib pArray =
      { params := lib, locked := false, crashed := true,
        trace := prologue h lib pArray ++ poolCalls pArray } := by
  have hd2 : ¬ pArray.ndims ≠ 2 := by simp [hd]
  unfold after processCallbacks
  rw [if_neg hd2]
  simp only [bind, StateT.bind, StateT.run, emit, getIntegerParam, getDoubleParam,
      setIntegerParam, unlock, lock, nullDereference,
      modify, modifyGet, MonadStateOf.modifyGet, StateT.modifyGet, get, getThe, MonadStateOf.get,
      StateT.get, pure, StateT.pure, enter]
  have hv2 : ¬ (h.centroids_calculate_params (configured h lib pArray)).1
      ≠ h.CENTROIDS_PARAMS_OK := by simp [hv]
  refine Eq.trans (congrArg Prod.snd (congrFun (if_neg hv2) _)) ?_
  rcases hp with hs | ho
  · simp only [hs]
    simp only [List.nil_append, List.cons_append, prologue, poolCalls]
    rfl
  · cases hs : h.convert pArray .NDUInt16 with
    | none =>
      simp only [hs]
      simp only [List.nil_append, List.cons_append, prologue, poolCalls]
      rfl
    | some scratch =>
      simp only [hs, ho]
      simp only [List.nil_append, List.cons_append, prologue, poolCalls]
      rfl

theorem pool_cases (h : Host) (pArray : NDArray) :
    (∃ scratch output, Delivered h pArray scratch output) ∨ PoolFails h pArray := by
  unfold Delivered PoolFails
  cases hs : h.convert pArray .NDUInt16 with
  | none => exact Or.inr (Or.inl rfl)
  | some scratch =>
    cases ho : h.alloc 2 [pArray.size 0, pArray.size 1] .NDUInt16 with
    | none => exact Or.inr (Or.inr rfl)
    | some output => exact Or.inl ⟨scratch, output, rfl, rfl⟩

/-! ## The configured record -/

theorem fitPixels_eq (h : Host) (lib : ParamList) :
    fitPixels h lib = h.centroids_initialize_params.fit_pixels ||| flagBits h lib := by
  unfold fitPixels flagBits
  by_cases h1 : lib.int32 .NDPluginCentroidsFitPixels2D = 0 <;>
    by_cases h2 : lib.int32 .NDPluginCentroidsFitPixels1DX = 0 <;>
    by_cases h3 : lib.int32 .NDPluginCentroidsFitPixels1DY = 0 <;>
    simp [h1, h2, h3, Nat.lor_assoc]

/-- With constants that are nonzero and share no bit, a mode is set in the OR
over the nonzero flags exactly when its own flag is nonzero. -/
theorem flagBits_mode_iff (h : Host) (lib : ParamList) (hm : DistinctModes h) :
    (flagBits h lib &&& h.CENTROIDS_FIT_2D ≠ 0 ↔
      lib.int32 .NDPluginCentroidsFitPixels2D ≠ 0) ∧
    (flagBits h lib &&& h.CENTROIDS_FIT_1D_X ≠ 0 ↔
      lib.int32 .NDPluginCentroidsFitPixels1DX ≠ 0) ∧
    (flagBits h lib &&& h.CENTROIDS_FIT_1D_Y ≠ 0 ↔
      lib.int32 .NDPluginCentroidsFitPixels1DY ≠ 0) := by
  obtain ⟨a0, b0, c0, ab, ac, bc⟩ := hm
  have ba : h.CENTROIDS_FIT_1D_X &&& h.CENTROIDS_FIT_2D = 0 := by rw [Nat.and_comm]; exact ab
  have ca : h.CENTROIDS_FIT_1D_Y &&& h.CENTROIDS_FIT_2D = 0 := by rw [Nat.and_comm]; exact ac
  have cb : h.CENTROIDS_FIT_1D_Y &&& h.CENTROIDS_FIT_1D_X = 0 := by rw [Nat.and_comm]; exact bc
  unfold flagBits
  simp only [land_lor3]
  by_cases h1 : lib.int32 .NDPluginCentroidsFitPixels2D = 0 <;>
    by_cases h2 : lib.int32 .NDPluginCentroidsFitPixels1DX = 0 <;>
    by_cases h3 : lib.int32 .NDPluginCentroidsFitPixels1DY = 0 <;>
    simp [h1, h2, h3, a0, b0, c0, ab, ac, bc, ba, ca, cb]

theorem uint16_t_shift (t k : Int) : uint16_t (t + 65536 * k) = uint16_t t := by
  unfold uint16_t
  rw [Int.add_mul_emod_self_left]

theorem configured_threshold_shift (h : Host) (lib : ParamList) (pArray : NDArray) (k : Int) :
    configured h
        (lib.setInt32 .NDPluginCentroidsThreshold
          (lib.int32 .NDPluginCentroidsThreshold + 65536 * k)) pArray
      = configured h lib pArray := by
  simp [configured, fitPixels, ParamList.setInt32, Function.update, uint16_t_shift]

/-! ## Consequences of the assumptions on the host -/

theorem validated_keeps (h : Host) (lib : ParamList) (pArray : NDArray)
    (hk : KeepsConfiguration h) :
    { validated h lib pArray with other := (configured h lib pArray).other }
      = configured h lib pArray :=
  hk (configured h lib pArray)

theorem validated_fields (h : Host) (lib : ParamList) (pArray : NDArray)
    (hk : KeepsConfiguration h) :
    (validated h lib pArray).threshold = (configured h lib pArray).threshold ∧
    (validated h lib pArray).fit_pixels = (configured h lib pArray).fit_pixels ∧
    (validated h lib pArray).n = (configured h lib pArray).n ∧
    (validated h lib pArray).x = (configured h lib pArray).x ∧
    (validated h lib pArray).y = (configured h lib pArray).y ∧
    (validated h lib pArray).return_map = (configured h lib pArray).return_map ∧
    (validated h lib pArray).return_pixels = (configured h lib pArray).return_pixels := by
  have e := validated_keeps h lib pArray hk
  exact ⟨by simpa using congrArg centroid_params.threshold e,
    by simpa using congrArg centroid_params.fit_pixels e,
    by simpa using congrArg centroid_params.n e,
    by simpa using congrArg centroid_params.x e,
    by simpa using congrArg centroid_params.y e,
    by simpa using congrArg centroid_params.return_map e,
    by simpa using congrArg centroid_params.return_pixels e⟩

/-! ## What the log holds on a 2-dimensional array -/

/-- Validation is called once, on `configured`, whatever happens afterwards. -/
theorem validations_eq (h : Host) (lib : ParamList) (pArray : NDArray) (hd : pArray.ndims = 2) :
    validations (calls (after h lib pArray)) = [configured h lib pArray] := by
  by_cases hv : (h.centroids_calculate_params (configured h lib pArray)).1
      = h.CENTROIDS_PARAMS_OK
  · rcases pool_cases h pArray with ⟨scratch, output, hp⟩ | hp
    · rw [after_valid h lib pArray scratch output hd hv hp]
      rfl
    · rw [after_crash h lib pArray hd hv hp]
      rfl
  · rw [after_invalid h lib pArray hd hv]
    rfl

/-- The one engine call when validation passes and the pool has delivered. -/
theorem engineCalls_eq (h : Host) (lib : ParamList) (pArray scratch output : NDArray)
    (hd : pArray.ndims = 2)
    (hv : (h.centroids_calculate_params (configured h lib pArray)).1 = h.CENTROIDS_PARAMS_OK)
    (hp : Delivered h pArray scratch output) :
    engineCalls (calls (after h lib pArray))
      = [(scratch.pData, output.pData, none, validated h lib pArray)] := by
  rw [after_valid h lib pArray scratch output hd hv hp]
  rfl

/-- An engine call is only made after validation passed and the pool has
delivered, and then with these arguments. -/
theorem engineCalls_mem (h : Host) (lib : ParamList) (pArray : NDArray)
    (hd : pArray.ndims = 2) (c : Nat × Nat × Option (List Nat) × centroid_params)
    (hc : c ∈ engineCalls (calls (after h lib pArray))) :
    (h.centroids_calculate_params (configured h lib pArray)).1 = h.CENTROIDS_PARAMS_OK ∧
    ∃ scratch output, Delivered h pArray scratch output ∧
      c = (scratch.pData, output.pData, none, validated h lib pArray) := by
  by_cases hv : (h.centroids_calculate_params (configured h lib pArray)).1
      = h.CENTROIDS_PARAMS_OK
  · rcases pool_cases h pArray with ⟨scratch, output, hp⟩ | hp
    · rw [engineCalls_eq h lib pArray scratch output hd hv hp] at hc
      exact ⟨hv, scratch, output, hp, by simpa using hc⟩
    · rw [after_crash h lib pArray hd hv hp] at hc
      exact absurd hc (List.not_mem_nil c)
  · rw [after_invalid h lib pArray hd hv] at hc
    exact absurd hc (List.not_mem_nil c)

/-! ## Claims -/

/-- C1, as stated, fails: with a 2-dimensional frame and parameters that
validation accepts, an exhausted pool leaves both pointers NULL, the run ends
in the dereference of lines 117-118, and the engine is not invoked although
validation returned `CENTROIDS_PARAMS_OK`. -/
theorem C1_counterexample :
    sampleFrame.ndims = 2 ∧
    (exhaustedPoolHost.centroids_calculate_params
        (configured exhaustedPoolHost sampleLib sampleFrame)).1
      = exhaustedPoolHost.CENTROIDS_PARAMS_OK ∧
    engineCalls (calls (after exhaustedPoolHost sampleLib sampleFrame)) = [] ∧
    (after exhaustedPoolHost sampleLib sampleFrame).crashed = true ∧
    ¬ ((exhaustedPoolHost.centroids_calculate_params
          (configured exhaustedPoolHost sampleLib sampleFrame)).1
        = exhaustedPoolHost.CENTROIDS_PARAMS_OK →
      (engineCalls (calls (after exhaustedPoolHost sampleLib sampleFrame))).length = 1) := by
  decide

/-- C1, amended: on a 2-dimensional array the callback runs validation once,
on the record built from the parameters read in this call (the log starts with
the twelve reads followed by the validation call, the record holds the values
the library had at entry, and nothing is read afterwards). The engine is
invoked exactly once when validation returns `CENTROIDS_PARAMS_OK` and the pool
delivers both arrays, at most once in any case, and only after validation
returned `CENTROIDS_PARAMS_OK` and the pool delivered. When validation returns
anything else the engine is not invoked, no output array is requested from the
pool and nothing is handed to `endProcessCallbacks`. -/
theorem C1_validation_gates_engine (h : Host) (lib : ParamList) (pArray : NDArray)
    (hd : pArray.ndims = 2) :
    validations (calls (after h lib pArray)) = [configured h lib pArray] ∧
    reads (calls (after h lib pArray)) =
      [.NDPluginCentroidsThreshold, .NDPluginCentroidsBox, .NDPluginCentroidsSearchBox,
        .NDPluginCentroidsCOMPhoton, .NDPluginCentroidsPixelPhoton,
        .NDPluginCentroidsPixelBgnd, .NDPluginCentroidsOverlapMax, .NDPluginCentroidsSumMin,
        .NDPluginCentroidsSumMax, .NDPluginCentroidsFitPixels2D,
        .NDPluginCentroidsFitPixels1DX, .NDPluginCentroidsFitPixels1DY] ∧
    (∃ post, calls (after h lib pArray) = (prologue h lib pArray).map Prod.snd ++ post ∧
      reads post = [] ∧ validations post = []) ∧
    ((h.centroids_calculate_params (configured h lib pArray)).1 = h.CENTROIDS_PARAMS_OK →
      ∀ scratch output, Delivered h pArray scratch output →
        (engineCalls (calls (after h lib pArray))).length = 1) ∧
    (engineCalls (calls (after h lib pArray))).length ≤ 1 ∧
    (engineCalls (calls (after h lib pArray)) ≠ [] →
      (h.centroids_calculate_params (configured h lib pArray)).1 = h.CENTROIDS_PARAMS_OK ∧
      ∃ scratch output, Delivered h pArray scratch output) ∧
    ((h.centroids_calculate_params (configured h lib pArray)).1 ≠ h.CENTROIDS_PARAMS_OK →
      engineCalls (calls (after h lib pArray)) = [] ∧
      allocations (calls (after h lib pArray)) = [] ∧
      handedDownstream (calls (after h lib pArray)) = [] ∧
      (after h lib pArray).crashed = false) := by
  by_cases hv : (h.centroids_calculate_params (configured h lib pArray)).1
      = h.CENTROIDS_PARAMS_OK
  · rcases pool_cases h pArray with ⟨scratch, output, hp⟩ | hp
    · rw [after_valid h lib pArray scratch output hd hv hp]
      refine ⟨rfl, rfl,
        ⟨(poolCalls pArray ++ engineCallsOn h lib pArray scratch output).map Prod.snd,
          ?_, rfl, rfl⟩,
        fun _ _ _ _ => rfl, Nat.le_refl 1,
        fun _ => ⟨hv, scratch, output, hp⟩, fun hn => absurd hv hn⟩
      simp only [calls, List.map_append, List.append_assoc]
    · rw [after_crash h lib pArray hd hv hp]
      refine ⟨rfl, rfl, ⟨_, List.map_append _ _ _, rfl, rfl⟩, ?_, Nat.zero_le 1,
        fun hne => absurd rfl hne, fun hn => absurd hv hn⟩
      intro _ scratch output hdel
      rcases hp with hs | ho
      · exact absurd (hdel.1.symm.trans hs) (by simp)
      · exact absurd (hdel.2.symm.trans ho) (by simp)
  · rw [after_invalid h lib pArray hd hv]
    refine ⟨rfl, rfl, ⟨_, List.map_append _ _ _, rfl, rfl⟩, fun hn => absurd hn hv,
      Nat.zero_le 1, fun hne => absurd rfl hne, fun _ => ⟨rfl, rfl, rfl, rfl⟩⟩

/-- Witness for the amended C1: the sample frame under the sample host, with
a configuration that validation accepts and one it rejects. -/
theorem C1_validation_gates_engine_witness :
    validations (calls (after sampleHost sampleLib sampleFrame))
      = [configured sampleHost sampleLib sampleFrame] ∧
    (engineCalls (calls (after sampleHost sampleLib sampleFrame))).length = 1 ∧
    engineCalls (calls (after sampleHost rejectedLib sampleFrame)) = [] :=
  ⟨(C1_validation_gates_engine sampleHost sampleLib sampleFrame rfl).1,
    (C1_validation_gates_engine sampleHost sampleLib sampleFrame rfl).2.2.2.1 (by decide)
      { sampleFrame with dataType := .NDUInt16, pData := 8192 }
      { ndims := 2, dims := [640, 480], dataType := .NDUInt16, pData := 4096 } ⟨rfl, rfl⟩,
    ((C1_validation_gates_engine sampleHost rejectedLib sampleFrame rfl).2.2.2.2.2.2
      (by decide)).1⟩

/-- C2, as stated, fails: with `N_PHOTONS = 7` left by an earlier frame and a
configuration that validation rejects, `N_PHOTONS` is still 7 after the call,
not 0. -/
theorem C2_counterexample :
    sampleFrame.ndims = 2 ∧
    (sampleHost.centroids_calculate_params (configured sampleHost rejectedLib sampleFrame)).1
      ≠ sampleHost.CENTROIDS_PARAMS_OK ∧
    rejectedLib.int32 .NDPluginCentroidsNPhotons = 7 ∧
    (after sampleHost rejectedLib sampleFrame).params.int32 .NDPluginCentroidsNPhotons = 7 ∧
    (after sampleHost rejectedLib sampleFrame).params.int32 .NDPluginCentroidsNPhotons ≠ 0 := by
  decide

/-- C2, amended: on a 2-dimensional array whose parameters fail validation the
callback writes no parameter, so `N_PHOTONS` after the call is its value before
the call. -/
theorem C2_invalid_leaves_N_PHOTONS (h : Host) (lib : ParamList) (pArray : NDArray)
    (hd : pArray.ndims = 2)
    (hv : (h.centroids_calculate_params (configured h lib pArray)).1 ≠ h.CENTROIDS_PARAMS_OK) :
    (after h lib pArray).params.int32 .NDPluginCentroidsNPhotons
      = lib.int32 .NDPluginCentroidsNPhotons ∧
    writes (calls (after h lib pArray)) = [] := by
  rw [after_invalid h lib pArray hd hv]
  exact ⟨rfl, rfl⟩

/-- Witness for the amended C2: the rejected configuration on the sample frame. -/
theorem C2_invalid_leaves_N_PHOTONS_witness :
    (after sampleHost rejectedLib sampleFrame).params.int32 .NDPluginCentroidsNPhotons
      = rejectedLib.int32 .NDPluginCentroidsNPhotons ∧
    writes (calls (after sampleHost rejectedLib sampleFrame)) = [] :=
  C2_invalid_leaves_N_PHOTONS sampleHost rejectedLib sampleFrame rfl (by decide)

/-- C3, as stated, fails: with a 2-dimensional frame and parameters that pass
validation, an exhausted pool ends the run in the dereference of lines 117-118:
the engine returns no count, `N_PHOTONS` is never written and keeps the 7 of
an earlier frame. -/
theorem C3_counterexample :
    sampleFrame.ndims = 2 ∧
    (exhaustedPoolHost.centroids_calculate_params
        (configured exhaustedPoolHost sampleLib sampleFrame)).1
      = exhaustedPoolHost.CENTROIDS_PARAMS_OK ∧
    engineCalls (calls (after exhaustedPoolHost sampleLib sampleFrame)) = [] ∧
    writes (calls (after exhaustedPoolHost sampleLib sampleFrame)) = [] ∧
    (after exhaustedPoolHost sampleLib sampleFrame).params.int32 .NDPluginCentroidsNPhotons
      = 7 ∧
    (after exhaustedPoolHost sampleLib sampleFrame).crashed = true ∧
    ¬ (writes (calls (after exhaustedPoolHost sampleLib sampleFrame))).length = 1 := by
  decide

/-- C3, amended: on a 2-dimensional array whose parameters pass validation and
for which the pool delivers both arrays, the callback returns with `N_PHOTONS`
equal to the `size_t` the engine call of this frame returned, converted to a
32-bit int: the one value between -2^31 and 2^31 - 1 that differs from the
count by a multiple of 2^32, which is the count itself whenever the count is
below 2^31. It is the only parameter write of the call and it comes after the
engine call. -/
theorem C3_N_PHOTONS_is_engine_count (h : Host) (lib : ParamList)
    (pArray scratch output : NDArray)
    (hd : pArray.ndims = 2)
    (hv : (h.centroids_calculate_params (configured h lib pArray)).1 = h.CENTROIDS_PARAMS_OK)
    (hp : Delivered h pArray scratch output) :
    (after h lib pArray).crashed = false ∧
    engineCalls (calls (after h lib pArray)) =
      [(scratch.pData, output.pData, none, validated h lib pArray)] ∧
    nphotons h lib pArray scratch output =
      h.centroids_process scratch.pData output.pData none
        (h.centroids_calculate_params (configured h lib pArray)).2 ∧
    -2147483648 ≤ (after h lib pArray).params.int32 .NDPluginCentroidsNPhotons ∧
    (after h lib pArray).params.int32 .NDPluginCentroidsNPhotons < 2147483648 ∧
    ((after h lib pArray).params.int32 .NDPluginCentroidsNPhotons
        - (nphotons h lib pArray scratch output : Int)) % 4294967296 = 0 ∧
    (nphotons h lib pArray scratch output < 2147483648 →
      (after h lib pArray).params.int32 .NDPluginCentroidsNPhotons
        = (nphotons h lib pArray scratch output : Int)) ∧
    writes (calls (after h lib pArray))
      = [(.NDPluginCentroidsNPhotons,
          (after h lib pArray).params.int32 .NDPluginCentroidsNPhotons)] ∧
    ∃ pre post, calls (after h lib pArray) =
        pre ++ Call.centroids_process scratch.pData output.pData none
          (validated h lib pArray) :: post ∧
      writes pre = [] ∧
      writes post = [(.NDPluginCentroidsNPhotons,
        (after h lib pArray).params.int32 .NDPluginCentroidsNPhotons)] := by
  have hN : (after h lib pArray).params.int32 .NDPluginCentroidsNPhotons
      = epicsInt32 (nphotons h lib pArray scratch output) := by
    rw [after_valid h lib pArray scratch output hd hv hp]
    simp [ParamList.setInt32]
  rw [hN]
  refine ⟨?_, engineCalls_eq h lib pArray scratch output hd hv hp, rfl,
    epicsInt32_lower _, epicsInt32_upper _, epicsInt32_congr _,
    fun hlt => epicsInt32_of_lt hlt, ?_, ?_⟩
  · rw [after_valid h lib pArray scratch output hd hv hp]
  · rw [after_valid h lib pArray scratch output hd hv hp]
    rfl
  · rw [after_valid h lib pArray scratch output hd hv hp]
    refine ⟨((prologue h lib pArray).map Prod.snd ++ (poolCalls pArray).map Prod.snd),
      [Call.lock,
        Call.setIntegerParam .NDPluginCentroidsNPhotons
          (epicsInt32 (nphotons h lib pArray scratch output)),
        Call.release scratch, Call.endProcessCallbacks output false true,
        Call.callParamCallbacks], ?_, rfl, rfl⟩
    simp only [calls, List.map_append]
    rfl

/-- Witness for the amended C3: the sample engine reports three events. -/
theorem C3_N_PHOTONS_is_engine_count_witness :
    (after sampleHost sampleLib sampleFrame).params.int32 .NDPluginCentroidsNPhotons = 3 :=
  ((C3_N_PHOTONS_is_engine_count sampleHost sampleLib sampleFrame
      { sampleFrame with dataType := .NDUInt16, pData := 8192 }
      { ndims := 2, dims := [640, 480], dataType := .NDUInt16, pData := 4096 }
      rfl (by decide) ⟨rfl, rfl⟩).2.2.2.2.2.2.1 (by decide)).trans (by decide)

/-- C4, as stated, fails on the pixel type: an 8-bit input frame with valid
parameters yields a downstream array of type `NDUInt16`. -/
theorem C4_counterexample :
    sampleFrame.ndims = 2 ∧
    (sampleHost.centroids_calculate_params (configured sampleHost sampleLib sampleFrame)).1
      = sampleHost.CENTROIDS_PARAMS_OK ∧
    sampleFrame.dataType = .NDUInt8 ∧
    (handedDownstream (calls (after sampleHost sampleLib sampleFrame))).map (·.dataType)
      = [.NDUInt16] ∧
    ¬ ∀ out ∈ handedDownstream (calls (after sampleHost sampleLib sampleFrame)),
        out.dataType = sampleFrame.dataType := by
  decide

/-- C4, amended: on a 2-dimensional array whose parameters pass validation the
callback asks the pool for one array of 2 dimensions, the two sizes of the
input and pixel type `NDUInt16`; an array handed downstream is the array the
pool returned for that request, and when the pool delivers both arrays that one
array is handed downstream. With a pool that returns what is asked for it has
the number of dimensions of the input and the size of the input in each of
them, and its pixel type is `NDUInt16` whatever the type of the input is, so
the types agree exactly for `NDUInt16` input. -/
theorem C4_output_shape_and_type (h : Host) (lib : ParamList) (pArray : NDArray)
    (hd : pArray.ndims = 2)
    (hv : (h.centroids_calculate_params (configured h lib pArray)).1 = h.CENTROIDS_PARAMS_OK) :
    allocations (calls (after h lib pArray))
      = [(2, [pArray.size 0, pArray.size 1], .NDUInt16)] ∧
    (∀ out ∈ handedDownstream (calls (after h lib pArray)),
      h.alloc 2 [pArray.size 0, pArray.size 1] .NDUInt16 = some out) ∧
    (∀ scratch output, Delivered h pArray scratch output →
      handedDownstream (calls (after h lib pArray)) = [output]) ∧
    (HonoursRequests h → ∀ out ∈ handedDownstream (calls (after h lib pArray)),
      out.ndims = pArray.ndims ∧
      (∀ i, i < 2 → out.size i = pArray.size i) ∧
      out.dataType = .NDUInt16 ∧
      (out.dataType = pArray.dataType ↔ pArray.dataType = .NDUInt16)) := by
  have hmem : ∀ out ∈ handedDownstream (calls (after h lib pArray)),
      h.alloc 2 [pArray.size 0, pArray.size 1] .NDUInt16 = some out := by
    intro out hout
    rcases pool_cases h pArray with ⟨scratch, output, hp⟩ | hp
    · rw [after_valid h lib pArray scratch output hd hv hp] at hout
      have hout2 : out ∈ [output] := hout
      have hout3 : out = output := by simpa using hout2
      rw [hout3]
      exact hp.2
    · rw [after_crash h lib pArray hd hv hp] at hout
      exact absurd hout (List.not_mem_nil out)
  refine ⟨?_, hmem, ?_, ?_⟩
  · rcases pool_cases h pArray with ⟨scratch, output, hp⟩ | hp
    · rw [after_valid h lib pArray scratch output hd hv hp]
      rfl
    · rw [after_crash h lib pArray hd hv hp]
      rfl
  · intro scratch output hp
    rw [after_valid h lib pArray scratch output hd hv hp]
    rfl
  · intro hh out hout
    obtain ⟨h1, h2, h3⟩ := hh 2 [pArray.size 0, pArray.size 1] .NDUInt16 out (hmem out hout)
    refine ⟨by rw [h1, hd], ?_, h3, ?_⟩
    · intro i hi
      unfold NDArray.size
      rw [h2]
      interval_cases i <;> rfl
    · rw [h3]
      exact ⟨fun e => e.symm, fun e => e.symm⟩

/-- Witness for the amended C4: the sample frame under the sample host, whose
pool returns what is asked for. -/
theorem C4_output_shape_and_type_witness :
    handedDownstream (calls (after sampleHost sampleLib sampleFrame))
      = [{ ndims := 2, dims := [640, 480], dataType := .NDUInt16, pData := 4096 }] ∧
    ∀ out ∈ handedDownstream (calls (after sampleHost sampleLib sampleFrame)),
      out.ndims = sampleFrame.ndims ∧
      (∀ i, i < 2 → out.size i = sampleFrame.size i) ∧
      out.dataType = .NDUInt16 ∧
      (out.dataType = sampleFrame.dataType ↔ sampleFrame.dataType = .NDUInt16) :=
  ⟨(C4_output_shape_and_type sampleHost sampleLib sampleFrame rfl (by decide)).2.2.1
      { sampleFrame with dataType := .NDUInt16, pData := 8192 }
      { ndims := 2, dims := [640, 480], dataType := .NDUInt16, pData := 4096 } ⟨rfl, rfl⟩,
    (C4_output_shape_and_type sampleHost sampleLib sampleFrame rfl (by decide)).2.2.2
      (fun _ _ _ _ e => by cases e; exact ⟨rfl, rfl, rfl⟩)⟩

/-- C5: with the lock held at entry, on every path every `getIntegerParam`,
`getDoubleParam` and `setIntegerParam` is made with the lock held and every
`centroids_process` call is made with the lock released. Whenever the callback
returns (array not 2-dimensional, validation failure, success) the lock is
held again and the callback has made as many `unlock` calls as `lock` calls.
The one run that does not return is the dereference of a NULL pool result
after validation passed on a 2-dimensional array. -/
theorem C5_lock_discipline (h : Host) (lib : ParamList) (pArray : NDArray) :
    (∀ e ∈ (after h lib pArray).trace, e.2.isParamAccess = true → e.1 = true) ∧
    (∀ e ∈ (after h lib pArray).trace, e.2.isEngine = true → e.1 = false) ∧
    ((after h lib pArray).crashed = false →
      (after h lib pArray).locked = true ∧
      ((calls (after h lib pArray)).filter Call.isUnlock).length
        = ((calls (after h lib pArray)).filter Call.isLock).length) ∧
    ((after h lib pArray).crashed = true ↔
      pArray.ndims = 2 ∧
      (h.centroids_calculate_params (configured h lib pArray)).1 = h.CENTROIDS_PARAMS_OK ∧
      PoolFails h pArray) := by
  by_cases hd : pArray.ndims = 2
  · by_cases hv : (h.centroids_calculate_params (configured h lib pArray)).1
        = h.CENTROIDS_PARAMS_OK
    · rcases pool_cases h pArray with ⟨scratch, output, hp⟩ | hp
      · have hnf : ¬ PoolFails h pArray := by
          rintro (hs | ho)
          · exact absurd (hp.1.symm.trans hs) (by simp)
          · exact absurd (hp.2.symm.trans ho) (by simp)
        rw [after_valid h lib pArray scratch output hd hv hp]
        refine ⟨?_, ?_, fun _ => ⟨rfl, rfl⟩, ?_⟩
        · simp [prologue, poolCalls, engineCallsOn, Call.isParamAccess]
        · simp [prologue, poolCalls, engineCallsOn, Call.isEngine]
        · simp [hnf]
      · rw [after_crash h lib pArray hd hv hp]
        refine ⟨?_, ?_, fun hc => absurd hc (by simp), ?_⟩
        · simp [prologue, poolCalls, Call.isParamAccess]
        · simp [prologue, poolCalls, Call.isEngine]
        · simp [hd, hv, hp]
    · rw [after_invalid h lib pArray hd hv]
      refine ⟨?_, ?_, fun _ => ⟨rfl, rfl⟩, ?_⟩
      · simp [prologue, Call.isParamAccess]
      · simp [prologue, Call.isEngine]
      · simp [hv]
  · rw [after_not2D h lib pArray hd]
    refine ⟨?_, ?_, fun _ => ⟨rfl, rfl⟩, ?_⟩
    · simp [Call.isParamAccess]
    · simp [Call.isEngine]
    · simp [hd]

/-- C6, as stated, fails: for a frame whose dimension 0 (the row length) is
640 and whose dimension 1 is 480, the record handed to validation and to the
engine has `x = 480` and `y = 640`. -/
theorem C6_counterexample :
    sampleFrame.ndims = 2 ∧ sampleFrame.size 0 = 640 ∧ sampleFrame.size 1 = 480 ∧
    (validations (calls (after sampleHost sampleLib sampleFrame))).map (fun p => (p.x, p.y))
      = [(480, 640)] ∧
    (engineCalls (calls (after sampleHost sampleLib sampleFrame))).map
        (fun c => (c.2.2.2.x, c.2.2.2.y)) = [(480, 640)] ∧
    ¬ ∀ p ∈ validations (calls (after sampleHost sampleLib sampleFrame)),
        p.x = sampleFrame.size 0 ∧ p.y = sampleFrame.size 1 := by
  decide

/-- C6, amended: for every 2-dimensional input array the record handed to
validation has `x` equal to the size of dimension 1 and `y` equal to the size
of dimension 0; the engine, when it is called, is handed that record as
validation left it, so with a validation that keeps the configured members the
engine sees the same `x` and `y`. -/
theorem C6_x_is_dim1_y_is_dim0 (h : Host) (lib : ParamList) (pArray : NDArray)
    (hd : pArray.ndims = 2) :
    (validations (calls (after h lib pArray))).map (fun p => (p.x, p.y))
      = [(pArray.size 1, pArray.size 0)] ∧
    ((h.centroids_calculate_params (configured h lib pArray)).1 = h.CENTROIDS_PARAMS_OK →
      ∀ scratch output, Delivered h pArray scratch output →
      (engineCalls (calls (after h lib pArray))).map (fun c => c.2.2.2)
        = [(h.centroids_calculate_params (configured h lib pArray)).2] ∧
      (KeepsConfiguration h →
        (engineCalls (calls (after h lib pArray))).map (fun c => (c.2.2.2.x, c.2.2.2.y))
          = [(pArray.size 1, pArray.size 0)])) ∧
    (∀ c ∈ engineCalls (calls (after h lib pArray)),
      c.2.2.2 = (h.centroids_calculate_params (configured h lib pArray)).2 ∧
      (KeepsConfiguration h → c.2.2.2.x = pArray.size 1 ∧ c.2.2.2.y = pArray.size 0)) := by
  have hval : (validations (calls (after h lib pArray))).map (fun p => (p.x, p.y))
      = [(pArray.size 1, pArray.size 0)] := by
    rw [validations_eq h lib pArray hd]
    rfl
  refine ⟨hval, fun hv scratch output hp => ?_, fun c hc => ?_⟩
  · rw [engineCalls_eq h lib pArray scratch output hd hv hp]
    refine ⟨rfl, fun hk => ?_⟩
    have e := validated_fields h lib pArray hk
    show [((validated h lib pArray).x, (validated h lib pArray).y)] = _
    rw [e.2.2.2.1, e.2.2.2.2.1]
    rfl
  · obtain ⟨_, scratch, output, _, hce⟩ := engineCalls_mem h lib pArray hd c hc
    subst hce
    refine ⟨rfl, fun hk => ?_⟩
    have e := validated_fields h lib pArray hk
    exact ⟨e.2.2.2.1, e.2.2.2.2.1⟩

/-- Witness for the amended C6: the 640 x 480 sample frame. -/
theorem C6_x_is_dim1_y_is_dim0_witness :
    (validations (calls (after sampleHost sampleLib sampleFrame))).map (fun p => (p.x, p.y))
      = [(sampleFrame.size 1, sampleFrame.size 0)] :=
  (C6_x_is_dim1_y_is_dim0 sampleHost sampleLib sampleFrame rfl).1

/-- C7: for every combination of the three flags the record handed to
validation has `fit_pixels` equal to the value `centroids_initialize_params`
left, ORed with the constants of the flags that are nonzero (the callback only
ORs bits in and never clears one), so every mode whose flag is nonzero is
enabled. For a library whose initialiser leaves `fit_pixels` at 0 the value is
exactly the OR of the constants over the nonzero flags, and with constants that
are nonzero and share no bit a mode is enabled exactly when its flag is
nonzero. The engine, when it is called, is handed the record as validation left
it, with the same `fit_pixels` when validation keeps the configured members. -/
theorem C7_fit_pixels_or_of_flags (h : Host) (lib : ParamList) (pArray : NDArray)
    (hd : pArray.ndims = 2) :
    (validations (calls (after h lib pArray))).map (·.fit_pixels)
      = [h.centroids_initialize_params.fit_pixels ||| flagBits h lib] ∧
    (∀ p ∈ validations (calls (after h lib pArray)),
      (lib.int32 .NDPluginCentroidsFitPixels2D ≠ 0 →
        p.fit_pixels &&& h.CENTROIDS_FIT_2D = h.CENTROIDS_FIT_2D) ∧
      (lib.int32 .NDPluginCentroidsFitPixels1DX ≠ 0 →
        p.fit_pixels &&& h.CENTROIDS_FIT_1D_X = h.CENTROIDS_FIT_1D_X) ∧
      (lib.int32 .NDPluginCentroidsFitPixels1DY ≠ 0 →
        p.fit_pixels &&& h.CENTROIDS_FIT_1D_Y = h.CENTROIDS_FIT_1D_Y)) ∧
    (h.centroids_initialize_params.fit_pixels = 0 →
      (validations (calls (after h lib pArray))).map (·.fit_pixels) = [flagBits h lib] ∧
      (DistinctModes h → ∀ p ∈ validations (calls (after h lib pArray)),
        (p.fit_pixels &&& h.CENTROIDS_FIT_2D ≠ 0 ↔
          lib.int32 .NDPluginCentroidsFitPixels2D ≠ 0) ∧
        (p.fit_pixels &&& h.CENTROIDS_FIT_1D_X ≠ 0 ↔
          lib.int32 .NDPluginCentroidsFitPixels1DX ≠ 0) ∧
        (p.fit_pixels &&& h.CENTROIDS_FIT_1D_Y ≠ 0 ↔
          lib.int32 .NDPluginCentroidsFitPixels1DY ≠ 0)) ∧
      (KeepsConfiguration h → ∀ c ∈ engineCalls (calls (after h lib pArray)),
        c.2.2.2.fit_pixels = flagBits h lib)) ∧
    (KeepsConfiguration h → ∀ c ∈ engineCalls (calls (after h lib pArray)),
      c.2.2.2.fit_pixels = h.centroids_initialize_params.fit_pixels ||| flagBits h lib) ∧
    ((h.centroids_calculate_params (configured h lib pArray)).1 = h.CENTROIDS_PARAMS_OK →
      ∀ scratch output, Delivered h pArray scratch output → KeepsConfiguration h →
      (engineCalls (calls (after h lib pArray))).map (fun c => c.2.2.2.fit_pixels)
        = [h.centroids_initialize_params.fit_pixels ||| flagBits h lib]) := by
  have hfp : (configured h lib pArray).fit_pixels
      = h.centroids_initialize_params.fit_pixels ||| flagBits h lib := fitPixels_eq h lib
  have heng : KeepsConfiguration h → ∀ c ∈ engineCalls (calls (after h lib pArray)),
      c.2.2.2.fit_pixels = h.centroids_initialize_params.fit_pixels ||| flagBits h lib := by
    intro hk c hc
    obtain ⟨_, scratch, output, _, hce⟩ := engineCalls_mem h lib pArray hd c hc
    subst hce
    show (validated h lib pArray).fit_pixels = _
    rw [(validated_fields h lib pArray hk).2.1, hfp]
  rw [validations_eq h lib pArray hd]
  refine ⟨by rw [← hfp]; rfl, ?_, ?_, heng, ?_⟩
  · intro p hp
    have hpe : p = configured h lib pArray := by simpa using hp
    subst hpe
    rw [hfp]
    unfold flagBits
    refine ⟨fun h1 => ?_, fun h2 => ?_, fun h3 => ?_⟩
    · rw [if_pos h1]
      exact lor_land_first _ _ _ _
    · rw [if_pos h2]
      exact lor_land_second _ _ _ _
    · rw [if_pos h3]
      exact lor_land_third _ _ _ _
  · intro h0
    have hfp0 : (configured h lib pArray).fit_pixels = flagBits h lib := by
      rw [hfp, h0]
      simp
    refine ⟨?_, ?_, ?_⟩
    · show [(configured h lib pArray).fit_pixels] = _
      rw [hfp0]
    · intro hm p hp
      have hpe : p = configured h lib pArray := by simpa using hp
      subst hpe
      rw [hfp0]
      exact flagBits_mode_iff h lib hm
    · intro hk c hc
      rw [heng hk c hc, h0]
      simp
  · intro hv scratch output hp hk
    rw [engineCalls_eq h lib pArray scratch output hd hv hp]
    show [(validated h lib pArray).fit_pixels] = _
    rw [(validated_fields h lib pArray hk).2.1, hfp]

/-- Witness for C7: the 1D-X and 1D-Y flags under the sample host, whose
initialiser leaves no mode enabled and whose constants are 4, 1 and 2: the
record has `fit_pixels = 3` and the 2D mode is not enabled. -/
theorem C7_fit_pixels_or_of_flags_witness :
    (validations (calls (after sampleHost fit1DLib sampleFrame))).map (·.fit_pixels) = [3] ∧
    ∀ p ∈ validations (calls (after sampleHost fit1DLib sampleFrame)),
      (p.fit_pixels &&& sampleHost.CENTROIDS_FIT_2D ≠ 0 ↔
        fit1DLib.int32 .NDPluginCentroidsFitPixels2D ≠ 0) ∧
      (p.fit_pixels &&& sampleHost.CENTROIDS_FIT_1D_X ≠ 0 ↔
        fit1DLib.int32 .NDPluginCentroidsFitPixels1DX ≠ 0) ∧
      (p.fit_pixels &&& sampleHost.CENTROIDS_FIT_1D_Y ≠ 0 ↔
        fit1DLib.int32 .NDPluginCentroidsFitPixels1DY ≠ 0) :=
  ⟨((C7_fit_pixels_or_of_flags sampleHost fit1DLib sampleFrame rfl).2.2.1 rfl).1.trans
      (by decide),
    ((C7_fit_pixels_or_of_flags sampleHost fit1DLib sampleFrame rfl).2.2.1 rfl).2.1
      ⟨by decide, by decide, by decide, by decide, by decide, by decide⟩⟩

/-- C8: for every value `t` of the `THRESHOLD` parameter the record handed
to validation has threshold `t` reduced modulo 2^16, a value below 65536 that
equals `t` exactly when `0 ≤ t ≤ 65535`; an out-of-range `t` is not rejected:
validation is handed the same record for `t` and for `t` plus any multiple of
65536. The engine, when it is called, is handed the record as validation left
it, with the same threshold when validation keeps the configured members. -/
theorem C8_threshold_mod_65536 (h : Host) (lib : ParamList) (pArray : NDArray)
    (hd : pArray.ndims = 2) :
    (validations (calls (after h lib pArray))).map (·.threshold)
      = [uint16_t (lib.int32 .NDPluginCentroidsThreshold)] ∧
    ((uint16_t (lib.int32 .NDPluginCentroidsThreshold) : Nat) : Int)
      = lib.int32 .NDPluginCentroidsThreshold % 65536 ∧
    uint16_t (lib.int32 .NDPluginCentroidsThreshold) < 65536 ∧
    (((uint16_t (lib.int32 .NDPluginCentroidsThreshold) : Nat) : Int)
        = lib.int32 .NDPluginCentroidsThreshold ↔
      0 ≤ lib.int32 .NDPluginCentroidsThreshold ∧
        lib.int32 .NDPluginCentroidsThreshold ≤ 65535) ∧
    (∀ k : Int, configured h
        (lib.setInt32 .NDPluginCentroidsThreshold
          (lib.int32 .NDPluginCentroidsThreshold + 65536 * k)) pArray
      = configured h lib pArray) ∧
    ((h.centroids_calculate_params (configured h lib pArray)).1 = h.CENTROIDS_PARAMS_OK →
      ∀ scratch output, Delivered h pArray scratch output → KeepsConfiguration h →
      (engineCalls (calls (after h lib pArray))).map (fun c => c.2.2.2.threshold)
        = [uint16_t (lib.int32 .NDPluginCentroidsThreshold)]) ∧
    (KeepsConfiguration h → ∀ c ∈ engineCalls (calls (after h lib pArray)),
      c.2.2.2.threshold = uint16_t (lib.int32 .NDPluginCentroidsThreshold)) := by
  rw [validations_eq h lib pArray hd]
  refine ⟨rfl, uint16_t_cast _, uint16_t_lt _, uint16_t_eq_iff _,
    fun k => configured_threshold_shift h lib pArray k, fun hv scratch output hp hk => ?_,
    fun hk c hc => ?_⟩
  · rw [engineCalls_eq h lib pArray scratch output hd hv hp]
    show [(validated h lib pArray).threshold] = _
    rw [(validated_fields h lib pArray hk).1]
    rfl
  · obtain ⟨_, scratch, output, _, hce⟩ := engineCalls_mem h lib pArray hd c hc
    subst hce
    exact (validated_fields h lib pArray hk).1

/-- Witness for C8: a configured threshold of 70000 reaches validation and
the engine as 4464. -/
theorem C8_threshold_mod_65536_witness :
    (validations (calls (after sampleHost largeThresholdLib sampleFrame))).map (·.threshold)
      = [4464] ∧
    (engineCalls (calls (after sampleHost largeThresholdLib sampleFrame))).map
      (fun c => c.2.2.2.threshold) = [4464] :=
  ⟨(C8_threshold_mod_65536 sampleHost largeThresholdLib sampleFrame rfl).1.trans (by decide),
    ((C8_threshold_mod_65536 sampleHost largeThresholdLib sampleFrame rfl).2.2.2.2.2.1
      (by decide)
      { sampleFrame with dataType := .NDUInt16, pData := 8192 }
      { ndims := 2, dims := [640, 480], dataType := .NDUInt16, pData := 4096 } ⟨rfl, rfl⟩
      (fun _ => rfl)).trans (by decide)⟩

/-- C9: for an array whose number of dimensions is not 2 the callback makes
exactly three calls: `endProcessCallbacks` on the input array itself, then
`callParamCallbacks`, then the error print. It reads and writes no parameter,
calls neither validation nor the engine, requests no array from the pool, and
leaves `N_PHOTONS` as it was. -/
theorem C9_not_2D_passes_input_through (h : Host) (lib : ParamList) (pArray : NDArray)
    (hd : pArray.ndims ≠ 2) :
    calls (after h lib pArray) =
      [.endProcessCallbacks pArray true true, .callParamCallbacks, .asynPrint .use2DImages] ∧
    reads (calls (after h lib pArray)) = [] ∧
    writes (calls (after h lib pArray)) = [] ∧
    validations (calls (after h lib pArray)) = [] ∧
    engineCalls (calls (after h lib pArray)) = [] ∧
    allocations (calls (after h lib pArray)) = [] ∧
    (after h lib pArray).params.int32 .NDPluginCentroidsNPhotons
      = lib.int32 .NDPluginCentroidsNPhotons ∧
    handedDownstream (calls (after h lib pArray)) = [pArray] := by
  rw [after_not2D h lib pArray hd]
  exact ⟨rfl, rfl, rfl, rfl, rfl, rfl, rfl, rfl⟩

/-- Witness for C9: a 3-dimensional array. -/
theorem C9_not_2D_passes_input_through_witness :
    handedDownstream (calls (after sampleHost sampleLib sampleCube)) = [sampleCube] :=
  (C9_not_2D_passes_input_through sampleHost sampleLib sampleCube (by decide)).2.2.2.2.2.2.2

/-- C10: whenever the callback reaches the engine (2-dimensional array,
validation passed, both arrays delivered by the pool) it calls it once,
whatever the library holds, with the data buffer of the array `convert`
returned for the input and type `NDUInt16`, the data buffer of the array
`alloc` returned, a null pixel vector, and the validated record; no engine call
is made with any other arguments. The record was handed to validation with
`n = 1`, `return_map = true` and `return_pixels = CENTROIDS_STORE_NONE`, and
has them still when validation keeps the configured members. With a pool that
never hands out the buffer of the input, neither buffer is the input array's
own. -/
theorem C10_engine_arguments (h : Host) (lib : ParamList) (pArray : NDArray)
    (hd : pArray.ndims = 2)
    (hv : (h.centroids_calculate_params (configured h lib pArray)).1 = h.CENTROIDS_PARAMS_OK) :
    (∀ scratch output, h.convert pArray .NDUInt16 = some scratch →
      h.alloc 2 [pArray.size 0, pArray.size 1] .NDUInt16 = some output →
      engineCalls (calls (after h lib pArray)) =
        [(scratch.pData, output.pData, none,
          (h.centroids_calculate_params (configured h lib pArray)).2)]) ∧
    (∀ c ∈ engineCalls (calls (after h lib pArray)), ∃ scratch output,
      h.convert pArray .NDUInt16 = some scratch ∧
      h.alloc 2 [pArray.size 0, pArray.size 1] .NDUInt16 = some output ∧
      c = (scratch.pData, output.pData, none,
        (h.centroids_calculate_params (configured h lib pArray)).2)) ∧
    (validations (calls (after h lib pArray))).map
        (fun p => (p.n, p.return_map, p.return_pixels))
      = [(1, true, h.CENTROIDS_STORE_NONE)] ∧
    (KeepsConfiguration h →
      (∀ scratch output, Delivered h pArray scratch output →
        (engineCalls (calls (after h lib pArray))).map
          (fun c => (c.2.2.2.n, c.2.2.2.return_map, c.2.2.2.return_pixels))
          = [(1, true, h.CENTROIDS_STORE_NONE)]) ∧
      ∀ c ∈ engineCalls (calls (after h lib pArray)),
        c.2.2.2.n = 1 ∧ c.2.2.2.return_map = true ∧
          c.2.2.2.return_pixels = h.CENTROIDS_STORE_NONE) ∧
    (FreshBuffers h pArray →
      ∀ c ∈ engineCalls (calls (after h lib pArray)),
        c.1 ≠ pArray.pData ∧ c.2.1 ≠ pArray.pData) := by
  refine ⟨?_, ?_, ?_, ?_, ?_⟩
  · intro scratch output hs ho
    exact engineCalls_eq h lib pArray scratch output hd hv ⟨hs, ho⟩
  · intro c hc
    obtain ⟨_, scratch, output, hp, hce⟩ := engineCalls_mem h lib pArray hd c hc
    exact ⟨scratch, output, hp.1, hp.2, hce⟩
  · rw [validations_eq h lib pArray hd]
    rfl
  · intro hk
    have e := validated_fields h lib pArray hk
    refine ⟨fun scratch output hp => ?_, fun c hc => ?_⟩
    · rw [engineCalls_eq h lib pArray scratch output hd hv hp]
      show [((validated h lib pArray).n, (validated h lib pArray).return_map,
        (validated h lib pArray).return_pixels)] = _
      rw [e.2.2.1, e.2.2.2.2.2.1, e.2.2.2.2.2.2]
      rfl
    · obtain ⟨_, scratch, output, _, hce⟩ := engineCalls_mem h lib pArray hd c hc
      subst hce
      exact ⟨e.2.2.1, e.2.2.2.2.2.1, e.2.2.2.2.2.2⟩
  · intro hf c hc
    obtain ⟨_, scratch, output, hp, hce⟩ := engineCalls_mem h lib pArray hd c hc
    subst hce
    exact ⟨hf.1 .NDUInt16 scratch hp.1,
      hf.2 2 [pArray.size 0, pArray.size 1] .NDUInt16 output hp.2⟩

/-- Witness for C10: the sample frame under the sample host, whose validation
keeps the configured members and whose pool hands out buffers of its own. -/
theorem C10_engine_arguments_witness :
    engineCalls (calls (after sampleHost sampleLib sampleFrame)) =
      [(8192, 4096, none,
        (sampleHost.centroids_calculate_params
          (configured sampleHost sampleLib sampleFrame)).2)] ∧
    (engineCalls (calls (after sampleHost sampleLib sampleFrame))).map
        (fun c => (c.2.2.2.n, c.2.2.2.return_map, c.2.2.2.return_pixels))
      = [(1, true, sampleHost.CENTROIDS_STORE_NONE)] ∧
    ∀ c ∈ engineCalls (calls (after sampleHost sampleLib sampleFrame)),
      c.1 ≠ sampleFrame.pData ∧ c.2.1 ≠ sampleFrame.pData :=
  ⟨(C10_engine_arguments sampleHost sampleLib sampleFrame rfl (by decide)).1
      { sampleFrame with dataType := .NDUInt16, pData := 8192 }
      { ndims := 2, dims := [640, 480], dataType := .NDUInt16, pData := 4096 } rfl rfl,
    ((C10_engine_arguments sampleHost sampleLib sampleFrame rfl (by decide)).2.2.2.1
      (fun _ => rfl)).1
      { sampleFrame with dataType := .NDUInt16, pData := 8192 }
      { ndims := 2, dims := [640, 480], dataType := .NDUInt16, pData := 4096 } ⟨rfl, rfl⟩,
    (C10_engine_arguments sampleHost sampleLib sampleFrame rfl (by decide)).2.2.2.2
      ⟨fun _ _ e => by cases e; exact (by decide : (8192 : Nat) ≠ 1024),
        fun _ _ _ _ e => by cases e; exact (by decide : (4096 : Nat) ≠ 1024)⟩⟩

end NDPluginCentroids
